import Mathlib

/-!
Verification of the Velo AI agency orchestrator against its specification.

The definitions below are a shallow embedding of the Python source:
  - `src/backend/agents/base_agent.py`  (agent registry, capability matching)
  - `src/backend/main.py`               (task execute / approve / reject handlers)
  - `src/backend/database/firestore_db.py` (document store operations)
  - `src/backend/database/repositories.py` (SQL task listing)
  - `src/backend/graph/state.py`        (workflow state, phases)
  - `src/backend/graph/workflow.py`     (Build and QA retry loop)

Python dictionaries are embedded as structures carrying the fields the
orchestrator reads or writes; `dict.get(k, default)` on an absent key is
embedded as a field holding the default.  Asynchronous broadcasts are
embedded as events appended to an event list; `asyncio.sleep` calls carry
no state and are dropped.  Store-assigned document ids are embedded as
ids derived from the collection size (the store assigns opaque fresh ids).
-/

namespace Velo

/- ====================================================================
   Agent registry: src/backend/agents/base_agent.py
   ==================================================================== -/

/-- AgentStatus enum (base_agent.py lines 25-30): IDLE, ACTIVE, WORKING, ERROR. -/
inductive AgentStatus where
  | idle
  | active
  | working
  | error
deriving DecidableEq, Repr

/-- An agent as seen by the registry: its metadata id, its capability list
(AgentMetadata.capabilities) and its current status. -/
structure Agent where
  id : String
  capabilities : List String
  status : AgentStatus
deriving DecidableEq, Repr

/-- AgentRegistry.register (base_agent.py lines 121-123): upsert by id into the
insertion-ordered dict `self._agents`.  A dict keeps the original position on
overwrite and appends a new key at the end. -/
def register (reg : List Agent) (a : Agent) : List Agent :=
  if reg.any (fun b => b.id == a.id) then
    reg.map (fun b => if b.id == a.id then a else b)
  else
    reg ++ [a]

/-- The eligibility filter of find_best_agent (base_agent.py line 154):
`agent.status in [AgentStatus.IDLE, AgentStatus.ACTIVE]`. -/
def eligibleStatus (a : Agent) : Bool :=
  a.status == AgentStatus.idle || a.status == AgentStatus.active

/-- The match score (base_agent.py lines 156-157):
`len(set(agent.metadata.capabilities) & set(required_capabilities))`.
The capability list is turned into a set, hence the dedup. -/
def matchScore (a : Agent) (req : List String) : Nat :=
  (a.capabilities.dedup.filter (fun c => req.contains c)).length

/-- A candidate (base_agent.py lines 154-160): eligible status and positive score. -/
def isCandidate (a : Agent) (req : List String) : Bool :=
  eligibleStatus a && decide (0 < matchScore a req)

/-- AgentRegistry.find_best_agent (base_agent.py lines 140-167).
The Python builds the candidate list in registration order, stable-sorts it by
score descending and returns the first element; that first element is the
earliest candidate achieving the maximal score, which is what this recursion
computes: a later candidate replaces an earlier one only on strictly greater
score. -/
def find_best_agent (req : List String) : List Agent → Option Agent
  | [] => none
  | a :: rest =>
    if isCandidate a req then
      match find_best_agent req rest with
      | none => some a
      | some b => if matchScore a req < matchScore b req then some b else some a
    else
      find_best_agent req rest

/- ====================================================================
   Document store and orchestrator state:
   src/backend/database/firestore_db.py and src/backend/main.py
   ==================================================================== -/

/-- A task document in the tasks collection.  The source keeps tasks as
dictionaries; these are the fields the orchestrator reads or writes.
`retry_count` is read with `task.get("retry_count", 0)`, so an absent key is
embedded as the value 0.  `created_at` is embedded as the creation sequence
number: the store timestamps are strictly increasing across creations. -/
structure TaskDoc where
  id : String
  project_id : String
  title : String
  description : String
  status : String
  priority : String
  assigned_agent : String
  retry_count : Nat
  max_retries : Nat
  artifact_id : Option String
  dependencies : List String
  created_at : Nat
deriving DecidableEq, Repr

/-- A project document (fields read by the task-execution path). -/
structure ProjectDoc where
  id : String
  name : String
  description : String
  project_type : String
  status : String
deriving DecidableEq, Repr

/-- An artifact document (main.py lines 954-966). -/
structure ArtifactDoc where
  id : String
  project_id : String
  task_id : String
  agent_name : String
  file_type : String
  file_name : String
  content : String
deriving DecidableEq, Repr

/-- The broadcasts sent through the websocket manager, in emission order. -/
inductive Event where
  | task_created (project_id task_id : String)
  | task_execution_started (project_id task_id agent_name : String)
  | agent_activity (project_id agent_name action status : String)
  | ai_generation_warning (project_id task_id message details : String)
  | task_execution_complete (project_id task_id : String)
  | task_approved (project_id task_id : String)
  | task_rejected (project_id task_id : String)
deriving DecidableEq, Repr

/-- The mutable state of the backend process: the three Firestore collections,
the module-level `tasks_lookup` dict (main.py line 205), the broadcast stream,
and the ids handed to BackgroundTasks for (re-)execution. -/
structure Backend where
  projects : List ProjectDoc
  tasks : List TaskDoc
  artifacts : List ArtifactDoc
  tasks_lookup : List (String × String)
  events : List Event
  background : List String
deriving Repr

/-- Firestore document lookup by id (first match). -/
def find_task (l : List TaskDoc) (tid : String) : Option TaskDoc :=
  l.find? (fun t => t.id == tid)

/-- FirestoreDB.get_task (firestore_db.py lines 100-105). -/
def get_task (s : Backend) (tid : String) : Option TaskDoc :=
  find_task s.tasks tid

/-- FirestoreDB.get_project (firestore_db.py lines 52-57). -/
def get_project (s : Backend) (pid : String) : Option ProjectDoc :=
  s.projects.find? (fun p => p.id == pid)

/-- Apply a field update to the document with the given id. -/
def map_task (l : List TaskDoc) (tid : String) (f : TaskDoc → TaskDoc) : List TaskDoc :=
  l.map (fun t => if t.id == tid then f t else t)

/-- FirestoreDB.update_task (firestore_db.py lines 115-118): the update dict of
each call site is embedded as the field update `f`. -/
def db_update_task (s : Backend) (tid : String) (f : TaskDoc → TaskDoc) : Backend :=
  { s with tasks := map_task s.tasks tid f }

/-- manager.broadcast: append the event to the stream. -/
def push_event (s : Backend) (e : Event) : Backend :=
  { s with events := s.events ++ [e] }

/-- tasks_lookup.get(task_id) (main.py lines 1170, 1204). -/
def lookup_get (s : Backend) (tid : String) : Option String :=
  (s.tasks_lookup.find? (fun kv => kv.1 == tid)).map (fun kv => kv.2)

/-- The task_data dict passed to FirestoreDB.create_task.  The planning phase
(main.py lines 499-505) passes project_id, title, description, status and
assigned_agent only; a caller may also carry dependencies, priority and retry
fields, which the store accepts verbatim. -/
structure TaskCreateData where
  project_id : String
  title : String
  description : String
  status : String
  priority : String
  assigned_agent : String
  dependencies : List String
  retry_count : Nat
  max_retries : Nat
deriving DecidableEq, Repr

/-- Fresh store-assigned document id (Firestore `document()` auto id),
embedded as an id derived from the collection size. -/
def fresh_task_id (s : Backend) : String :=
  "task_" ++ toString s.tasks.length

/-- FirestoreDB.create_task (firestore_db.py lines 88-98): assigns a fresh id,
sets timestamps, and stores the task data VERBATIM.  No field is inspected: in
particular the dependency list is not checked for cycles or for unknown ids,
and there is no error outcome of any kind. -/
def create_task (s : Backend) (d : TaskCreateData) : TaskDoc × Backend :=
  let t : TaskDoc :=
    { id := fresh_task_id s
      project_id := d.project_id
      title := d.title
      description := d.description
      status := d.status
      priority := d.priority
      assigned_agent := d.assigned_agent
      retry_count := d.retry_count
      max_retries := d.max_retries
      artifact_id := none
      dependencies := d.dependencies
      created_at := s.tasks.length }
  (t, { s with tasks := s.tasks ++ [t] })

/-- Fresh store-assigned artifact id. -/
def fresh_artifact_id (s : Backend) : String :=
  "artifact_" ++ toString s.artifacts.length

/-- An HTTP error raised by a handler: status code and detail string. -/
abbrev ApiError := Nat × String

/-- approve_task (main.py lines 1164-1196): look the task up in the
module-level dict, then in the store; if both succeed, set the status to
"completed" and broadcast task_approved.  The current status of the task is
never consulted. -/
def approve_task (s : Backend) (tid : String) : Except ApiError (Backend × String) :=
  match lookup_get s tid with
  | none => .error (404, "Task not found in lookup")
  | some pid =>
    match get_task s tid with
    | none => .error (404, "Task not found")
    | some _task =>
      let s1 := db_update_task s tid (fun t => { t with status := "completed" })
      let s2 := push_event s1 (Event.task_approved pid tid)
      .ok (s2, "approved")

/-- reject_task (main.py lines 1198-1240): look the task up, increment
retry_count, set the status to "pending", broadcast task_rejected, and hand
the task id to BackgroundTasks for re-execution.  max_retries is never
consulted and the status "failed" is never written. -/
def reject_task (s : Backend) (tid : String) : Except ApiError (Backend × String) :=
  match lookup_get s tid with
  | none => .error (404, "Task not found in lookup")
  | some pid =>
    match get_task s tid with
    | none => .error (404, "Task not found")
    | some task =>
      let retry_count := task.retry_count + 1
      let s1 := db_update_task s tid
        (fun t => { t with status := "pending", retry_count := retry_count })
      let s2 := push_event s1 (Event.task_rejected pid tid)
      let s3 := { s2 with background := s2.background ++ [tid] }
      .ok (s3, "retrying")

/-- The fallback templates of run_task_execution (main.py lines 639-952),
selected by project type with "software" as the default branch.  Each template
is a fixed text interpolating exactly the task title, the task description and
the agent name; the long static bodies of the source templates are abbreviated
here to a fixed marker, which preserves what the claims reference: the result
is a deterministic function of only these project and task fields. -/
def fallback_template (ptype title descr agent : String) : String :=
  if ptype == "marketing" then
    "# " ++ title ++ "\n**Generated by " ++ agent ++ "** | Marketing Campaign Template\n\n"
      ++ "## Campaign Overview\n" ++ descr ++ "\n[static template body]"
  else if ptype == "design" then
    "# " ++ title ++ "\n**Generated by " ++ agent ++ "** | Design Specifications Template\n\n"
      ++ "## Design Brief\n" ++ descr ++ "\n[static template body]"
  else if ptype == "business" then
    "# " ++ title ++ "\n**Generated by " ++ agent ++ "** | Business Strategy Template\n\n"
      ++ "## Executive Summary\n" ++ descr ++ "\n[static template body]"
  else if ptype == "content" then
    "# " ++ title ++ "\n**Generated by " ++ agent ++ "** | Content Template\n\n"
      ++ "## Content Overview\n" ++ descr ++ "\n[static template body]"
  else
    "// Generated by " ++ agent ++ "\n// Task: " ++ title ++ "\n// Description: " ++ descr
      ++ "\n\n[static template body]"

/-- run_task_execution (main.py lines 550-984).  The call into the content
generator (`gemini_client.generate_content_for_task`, lines 611-624) is the
collaborator boundary: its outcome is the parameter `gen` (ok with the
generated content, or error with the exception message).  The asyncio.sleep
calls carry no state and are dropped; each broadcast is an appended event. -/
def run_task_execution (s0 : Backend) (tid pid : String) (task0 : TaskDoc)
    (gen : Except String String) : Backend :=
  let agent_name := task0.assigned_agent
  let task_title := task0.title
  -- db.update_task(task_id, {"status": "in_progress"}); task = db.get_task(task_id)
  let s1 := db_update_task s0 tid (fun t => { t with status := "in_progress" })
  let task := (get_task s1 tid).getD task0
  let s2 := push_event s1 (Event.task_execution_started pid tid agent_name)
  let s3 := push_event s2 (Event.agent_activity pid agent_name
    ("Analyzing task: " ++ task_title) "working")
  let s4 := push_event s3 (Event.agent_activity pid agent_name
    ("Generating solution for: " ++ task_title) "working")
  let s5 := push_event s4 (Event.agent_activity pid "Judge"
    ("Reviewing " ++ agent_name ++ "s work") "working")
  -- project = db.get_project(project_id); defaults when the project is absent
  let project := get_project s5 pid
  let ptype := (project.map (fun p => p.project_type)).getD "software"
  -- generation under try/except: on failure broadcast a warning and fall back
  let s6 := match gen with
    | .ok _ => s5
    | .error e => push_event s5 (Event.ai_generation_warning pid tid
        ("AI " ++ ptype ++ " content generation unavailable. Using template output.")
        (e.take 200))
  let code_output := match gen with
    | .ok content => content
    | .error _ => fallback_template ptype task_title task.description agent_name
  -- artifact = db.create_artifact(artifact_data)
  let aid := fresh_artifact_id s6
  let artifact : ArtifactDoc :=
    { id := aid
      project_id := pid
      task_id := tid
      agent_name := agent_name
      file_type := "code"
      file_name := (task_title.replace " " "_").toLower ++ ".js"
      content := code_output }
  let s7 := { s6 with artifacts := s6.artifacts ++ [artifact] }
  -- db.update_task(task_id, {"status": "pending_review", "artifact_id": artifact_id})
  let s8 := db_update_task s7 tid
    (fun t => { t with status := "pending_review", artifact_id := some aid })
  push_event s8 (Event.task_execution_complete pid tid)

/- ====================================================================
   Task listing: src/backend/database/repositories.py lines 178-187
   ==================================================================== -/

/-- The ORDER BY of TaskRepository.list_by_project:
`ORDER BY priority DESC, created_at ASC`.  The priority column is a string, so
DESC is the string order descending; created_at ascending breaks ties. -/
def taskLE (a b : TaskDoc) : Prop :=
  b.priority < a.priority ∨ (a.priority = b.priority ∧ a.created_at ≤ b.created_at)

instance : DecidableRel taskLE := fun a b =>
  inferInstanceAs (Decidable (b.priority < a.priority
    ∨ (a.priority = b.priority ∧ a.created_at ≤ b.created_at)))

/-- TaskRepository.list_by_project (repositories.py lines 178-187):
`SELECT * FROM tasks WHERE project_id = $1 ORDER BY priority DESC, created_at ASC`.
Every task of the project is returned; there is no filter on status and no
look at dependencies. -/
def list_by_project (s : Backend) (pid : String) : List TaskDoc :=
  List.insertionSort taskLE (s.tasks.filter (fun t => t.project_id == pid))

/- ====================================================================
   Workflow state machine: src/backend/graph/state.py
   ==================================================================== -/

/-- WorkflowPhase enum (state.py lines 11-18). -/
inductive WorkflowPhase where
  | planning
  | building
  | testing
  | artifact_generation
  | completed
  | failed
deriving DecidableEq, Repr

/-- The position of a phase in the forward sequence of the specification:
Planning, Building, Testing, ArtifactGeneration, Completed, with Failed aside. -/
def phaseIndex : WorkflowPhase → Nat
  | .planning => 0
  | .building => 1
  | .testing => 2
  | .artifact_generation => 3
  | .completed => 4
  | .failed => 5

/-- AgentState (state.py lines 21-66).  The Dict[str, Any] payloads are opaque
to the workflow logic and are embedded as strings. -/
structure AgentState where
  project_id : String
  project_name : String
  project_description : String
  phase : WorkflowPhase
  current_agent : Option String
  iteration : Nat
  max_iterations : Nat
  current_task : Option String
  pending_tasks : List String
  completed_tasks : List String
  failed_tasks : List String
  artifacts : List String
  prd : Option String
  architecture_diagram : Option String
  database_schema : Option String
  test_results : List String
  validation_errors : List String
  passed_validation : Bool
  agent_activities : List String
  context : List (String × String)
  messages : List (String × String)
  errors : List String
  retry_count : Nat
  output : Option String
deriving DecidableEq, Repr

/-- create_initial_state (state.py lines 114-147). -/
def create_initial_state (project_id project_name project_description : String) : AgentState :=
  { project_id := project_id
    project_name := project_name
    project_description := project_description
    phase := WorkflowPhase.planning
    current_agent := none
    iteration := 0
    max_iterations := 10
    current_task := none
    pending_tasks := []
    completed_tasks := []
    failed_tasks := []
    artifacts := []
    prd := none
    architecture_diagram := none
    database_schema := none
    test_results := []
    validation_errors := []
    passed_validation := false
    agent_activities := []
    context := []
    messages := []
    errors := []
    retry_count := 0
    output := none }

/-- update_phase (state.py lines 150-153): `state["phase"] = new_phase` with no
check of the current phase. -/
def update_phase (s : AgentState) (new_phase : WorkflowPhase) : AgentState :=
  { s with phase := new_phase }

/-- is_workflow_complete (state.py lines 222-228): completed, failed, or the
iteration counter has reached max_iterations. -/
def is_workflow_complete (s : AgentState) : Bool :=
  s.phase == WorkflowPhase.completed
    || s.phase == WorkflowPhase.failed
    || decide (s.max_iterations ≤ s.iteration)

/- ====================================================================
   Build and QA loop: src/backend/graph/workflow.py lines 133-230, 348-366
   ==================================================================== -/

/-- BuildQAState (state.py lines 79-88); the task dict is opaque to the loop. -/
structure BuildQAState where
  task : String
  code_generated : Option String
  test_passed : Bool
  validation_feedback : Option String
  retry_count : Nat
  max_retries : Nat
  final_code : Option String
  status : String
deriving DecidableEq, Repr

/-- The fixed code text of write_code_node (workflow.py lines 141-145). -/
def generated_code_text : String :=
  "\n# Generated code here\ndef example_function():\n    return \"Hello, World!\"\n"

/-- write_code_node (workflow.py lines 133-148). -/
def write_code_node (s : BuildQAState) : BuildQAState :=
  { s with code_generated := some generated_code_text }

/-- test_code_node (workflow.py lines 151-167): simulated validation, failing
while retry_count is below 2. -/
def test_code_node (s : BuildQAState) : BuildQAState :=
  if s.retry_count < 2 then
    { s with test_passed := false,
             validation_feedback := some "Error: Missing error handling" }
  else
    { s with test_passed := true, final_code := s.code_generated }

/-- should_retry_code (workflow.py lines 170-179): the conditional router after
test_code. -/
def should_retry_code (s : BuildQAState) : String :=
  if !s.test_passed && decide (s.retry_count < s.max_retries) then "retry"
  else if s.test_passed then "success"
  else "failed"

/-- retry_code_node (workflow.py lines 182-188). -/
def retry_code_node (s : BuildQAState) : BuildQAState :=
  { s with retry_count := s.retry_count + 1 }

/-- finalize_code_node (workflow.py lines 191-196). -/
def finalize_code_node (s : BuildQAState) : BuildQAState :=
  { s with status := "completed" }

/-- The compiled Build and QA graph (build_build_qa_workflow, workflow.py lines
199-230): entry write_code, edge to test_code, then the conditional routes
"retry" through retry_code_node back to write_code, "success" through
finalize_code_node to END, and "failed" straight to END.  The second component
counts the write/test cycles executed.  Termination measure: each pass through
the retry branch increments retry_count, which the branch guard bounds by
max_retries. -/
def run_build_qa_loop (s : BuildQAState) : BuildQAState × Nat :=
  let s1 := test_code_node (write_code_node s)
  if h : should_retry_code s1 = "retry" then
    let out := run_build_qa_loop (retry_code_node s1)
    (out.1, out.2 + 1)
  else if should_retry_code s1 = "success" then (finalize_code_node s1, 1)
  else (s1, 1)
termination_by s.max_retries + 1 - s.retry_count
decreasing_by
  have key : ∀ t : BuildQAState, should_retry_code t = "retry" →
      t.retry_count < t.max_retries := by
    intro t htr
    by_cases hcond : (!t.test_passed && decide (t.retry_count < t.max_retries)) = true
    · exact of_decide_eq_true (Bool.and_elim_right hcond)
    · rw [should_retry_code, if_neg hcond] at htr
      by_cases hp : t.test_passed = true
      · rw [if_pos hp] at htr
        exact absurd htr (by decide)
      · rw [if_neg hp] at htr
        exact absurd htr (by decide)
  have e1 : (test_code_node (write_code_node s)).retry_count = s.retry_count := by
    rw [test_code_node]
    split <;> rfl
  have e2 : (test_code_node (write_code_node s)).max_retries = s.max_retries := by
    rw [test_code_node]
    split <;> rfl
  have hlt := key _ h
  rw [e1, e2] at hlt
  simp only [retry_code_node, e1, e2]
  omega

/-- run_build_qa_workflow (workflow.py lines 348-366): runs the loop from the
initial BuildQAState (retry_count 0, max_retries 5). -/
def run_build_qa_workflow (task : String) : BuildQAState × Nat :=
  run_build_qa_loop
    { task := task
      code_generated := none
      test_passed := false
      validation_feedback := none
      retry_count := 0
      max_retries := 5
      final_code := none
      status := "started" }

/- ====================================================================
   Concrete states used as test inputs
   ==================================================================== -/

/-- A task sitting in review with its retry counter already at the bound. -/
def c1Task : TaskDoc :=
  { id := "t1"
    project_id := "p1"
    title := "Core Implementation"
    description := "Execute main implementation work"
    status := "pending_review"
    priority := "high"
    assigned_agent := "Atlas"
    retry_count := 5
    max_retries := 5
    artifact_id := none
    dependencies := []
    created_at := 0 }

/-- The project the task belongs to. -/
def c1Project : ProjectDoc :=
  { id := "p1", name := "Demo", description := "x",
    project_type := "software", status := "ready" }

/-- Backend holding that one task, registered in the lookup dict. -/
def c1State : Backend :=
  { projects := [c1Project]
    tasks := [c1Task]
    artifacts := []
    tasks_lookup := [("t1", "p1")]
    events := []
    background := [] }

/-- State after rejecting the at-the-bound task. -/
def c1After : Backend :=
  match reject_task c1State "t1" with
  | .ok (s1, _) => s1
  | .error _ => c1State

/-- A task in review, first approval pending. -/
def c2Task : TaskDoc :=
  { id := "t9"
    project_id := "p2"
    title := "Quality Assurance"
    description := "Review deliverables"
    status := "pending_review"
    priority := "medium"
    assigned_agent := "Judge"
    retry_count := 0
    max_retries := 5
    artifact_id := some "artifact_0"
    dependencies := []
    created_at := 0 }

/-- Backend holding that one reviewed task. -/
def c2State : Backend :=
  { projects := []
    tasks := [c2Task]
    artifacts := []
    tasks_lookup := [("t9", "p2")]
    events := []
    background := [] }

/-- State after the first approval. -/
def c2After : Backend :=
  match approve_task c2State "t9" with
  | .ok (s1, _) => s1
  | .error _ => c2State

/-- State after approving the same task a second time. -/
def c2After2 : Backend :=
  match approve_task c2After "t9" with
  | .ok (s1, _) => s1
  | .error _ => c2After

/-- First half of a two-task dependency cycle: depends on the id the NEXT
created task will receive, an id that does not exist yet. -/
def c3d0 : TaskCreateData :=
  { project_id := "p3"
    title := "A"
    description := "first half of a dependency cycle"
    status := "todo"
    priority := "high"
    assigned_agent := "Atlas"
    dependencies := ["task_1"]
    retry_count := 0
    max_retries := 5 }

/-- Second half of the cycle: depends back on the first created task. -/
def c3d1 : TaskCreateData :=
  { c3d0 with title := "B", dependencies := ["task_0"] }

/-- An empty backend. -/
def c3s0 : Backend :=
  { projects := [], tasks := [], artifacts := [], tasks_lookup := [],
    events := [], background := [] }

/-- Backend after both creations: the stored graph is a 2-cycle. -/
def c3s2 : Backend :=
  (create_task (create_task c3s0 c3d0).2 c3d1).2

/-- A completed-free project: a root task in todo... -/
def c4t0 : TaskDoc :=
  { id := "a"
    project_id := "p4"
    title := "Design Database Schema"
    description := "Create schema"
    status := "todo"
    priority := "high"
    assigned_agent := "Atlas"
    retry_count := 0
    max_retries := 5
    artifact_id := none
    dependencies := []
    created_at := 0 }

/-- ...and a dependent task, also todo, whose dependency is NOT completed. -/
def c4t1 : TaskDoc :=
  { id := "b"
    project_id := "p4"
    title := "Build Backend API"
    description := "Implement endpoints"
    status := "todo"
    priority := "high"
    assigned_agent := "Atlas"
    retry_count := 0
    max_retries := 5
    artifact_id := none
    dependencies := ["a"]
    created_at := 1 }

/-- Backend holding the dependency chain. -/
def c4State : Backend :=
  { projects := [], tasks := [c4t0, c4t1], artifacts := [], tasks_lookup := [],
    events := [], background := [] }

/-- A task about to be executed. -/
def c7Task : TaskDoc :=
  { id := "t7"
    project_id := "p7"
    title := "Core Implementation"
    description := "Execute main implementation work"
    status := "todo"
    priority := "high"
    assigned_agent := "Atlas"
    retry_count := 0
    max_retries := 5
    artifact_id := none
    dependencies := []
    created_at := 0 }

/-- The software project the task belongs to. -/
def c7Project : ProjectDoc :=
  { id := "p7", name := "Demo", description := "x",
    project_type := "software", status := "ready" }

/-- Backend holding the task and its software project. -/
def c7State : Backend :=
  { projects := [c7Project]
    tasks := [c7Task]
    artifacts := []
    tasks_lookup := [("t7", "p7")]
    events := []
    background := [] }

/-- A fresh workflow state. -/
def c8s0 : AgentState := create_initial_state "p8" "Demo" "x"

/-- A mid-flight workflow state whose iteration counter has reached the bound. -/
def c9Stalled : AgentState :=
  { create_initial_state "p9" "Demo" "x" with
      phase := WorkflowPhase.building, iteration := 10 }

/-- The initial BuildQAState constructed by run_build_qa_workflow. -/
def c10Init : BuildQAState :=
  { task := "Build Backend API"
    code_generated := none
    test_passed := false
    validation_feedback := none
    retry_count := 0
    max_retries := 5
    final_code := none
    status := "started" }

/- ====================================================================
   Lemmas and theorems
   ==================================================================== -/

/-- Full characterization of find_best_agent: either there is no candidate and
the result is none, or the result is the earliest candidate of maximal score. -/
lemma find_best_cases (req : List String) (l : List Agent) :
    (find_best_agent req l = none ∧ ∀ a ∈ l, isCandidate a req = false)
    ∨ (∃ l1 a l2, find_best_agent req l = some a ∧ l = l1 ++ a :: l2
        ∧ isCandidate a req = true
        ∧ (∀ b ∈ l1, isCandidate b req = true → matchScore b req < matchScore a req)
        ∧ (∀ b ∈ l2, isCandidate b req = true → matchScore b req ≤ matchScore a req)) := by
  induction l with
  | nil => exact Or.inl ⟨rfl, by simp⟩
  | cons a rest ih =>
    by_cases hc : isCandidate a req = true
    · rcases ih with ⟨hnone, hall⟩ | ⟨l1, b, l2, hb, hdec, hcb, hlt, hle⟩
      · refine Or.inr ⟨[], a, rest, ?_, by simp, hc, by simp, ?_⟩
        · rw [find_best_agent, if_pos hc, hnone]
        · intro c hcmem hcand
          exact absurd hcand (by simp [hall c hcmem])
      · by_cases hab : matchScore a req < matchScore b req
        · refine Or.inr ⟨a :: l1, b, l2, ?_, by simp [hdec], hcb, ?_, hle⟩
          · rw [find_best_agent, if_pos hc, hb]
            exact if_pos hab
          · intro c hcmem hcand
            rcases List.mem_cons.mp hcmem with hca | hcl1
            · subst hca; exact hab
            · exact hlt c hcl1 hcand
        · refine Or.inr ⟨[], a, rest, ?_, by simp, hc, by simp, ?_⟩
          · rw [find_best_agent, if_pos hc, hb]
            exact if_neg hab
          · intro c hcmem hcand
            have hba : matchScore b req ≤ matchScore a req := Nat.le_of_not_lt hab
            subst hdec
            rcases List.mem_append.mp hcmem with hcl1 | hcl2
            · exact Nat.le_trans (Nat.le_of_lt (hlt c hcl1 hcand)) hba
            · rcases List.mem_cons.mp hcl2 with hcb2 | hcl2
              · subst hcb2; exact hba
              · exact Nat.le_trans (hle c hcl2 hcand) hba
    · have hstep : find_best_agent req (a :: rest) = find_best_agent req rest := by
        rw [find_best_agent, if_neg hc]
      rcases ih with ⟨hnone, hall⟩ | ⟨l1, b, l2, hb, hdec, hcb, hlt, hle⟩
      · refine Or.inl ⟨by rw [hstep, hnone], ?_⟩
        intro c hcmem
        rcases List.mem_cons.mp hcmem with hca | hcl
        · subst hca; exact Bool.eq_false_iff.mpr hc
        · exact hall c hcl
      · refine Or.inr ⟨a :: l1, b, l2, by rw [hstep, hb], by simp [hdec], hcb, ?_, hle⟩
        intro c hcmem hcand
        rcases List.mem_cons.mp hcmem with hca | hcl1
        · subst hca; exact absurd hcand hc
        · exact hlt c hcl1 hcand

/-- A candidate is an eligible agent with a positive intersection score. -/
lemma candidate_iff (a : Agent) (req : List String) :
    isCandidate a req = true ↔ (eligibleStatus a = true ∧ 0 < matchScore a req) := by
  simp [isCandidate]

/-- An eligible agent is idle or active (base_agent.py line 154). -/
lemma eligible_idle_or_active (a : Agent) (he : eligibleStatus a = true) :
    a.status = AgentStatus.idle ∨ a.status = AgentStatus.active := by
  cases h : a.status with
  | idle => exact Or.inl rfl
  | active => exact Or.inr rfl
  | working => simp [eligibleStatus, h] at he
  | error => simp [eligibleStatus, h] at he

/-- Agents whose status fails the eligibility filter are ignored entirely:
find_best_agent gives the same answer on the eligible sublist. -/
lemma find_best_filter (req : List String) (l : List Agent) :
    find_best_agent req (l.filter (fun b => eligibleStatus b)) = find_best_agent req l := by
  induction l with
  | nil => rfl
  | cons a rest ih =>
    by_cases he : eligibleStatus a = true
    · rw [List.filter_cons, if_pos (by simpa using he)]
      simp only [find_best_agent, ih]
    · have hc : isCandidate a req = false := by
        simp [isCandidate, Bool.eq_false_iff.mpr he]
      rw [List.filter_cons, if_neg (by simpa using he), ih]
      conv_rhs => rw [find_best_agent]
      simp [hc]

/-- C5: find_best_agent returns none exactly when no eligible agent has a
positive capability intersection with the required capabilities; otherwise it
returns a registered eligible agent with positive, maximal intersection score,
and every earlier-registered candidate has a strictly smaller score (the
first-registered agent wins ties). -/
theorem find_best_agent_spec (req : List String) (l : List Agent) :
    (find_best_agent req l = none ↔
      ∀ a ∈ l, ¬(eligibleStatus a = true ∧ 0 < matchScore a req))
    ∧ ∀ a : Agent, find_best_agent req l = some a →
        a ∈ l ∧ eligibleStatus a = true ∧ 0 < matchScore a req
        ∧ (∀ b ∈ l, eligibleStatus b = true → matchScore b req ≤ matchScore a req)
        ∧ ∃ l1 l2, l = l1 ++ a :: l2
            ∧ ∀ b ∈ l1, eligibleStatus b = true → 0 < matchScore b req →
                matchScore b req < matchScore a req := by
  rcases find_best_cases req l with ⟨hn, hall⟩ | ⟨l1, a0, l2, hsome, hdec, hca, hlt, hle⟩
  · constructor
    · constructor
      · intro _ a ha hcand
        have hfalse := hall a ha
        rw [(candidate_iff a req).mpr hcand] at hfalse
        exact Bool.true_eq_false.mp hfalse
      · intro _
        exact hn
    · intro a hsa
      rw [hn] at hsa
      exact Option.noConfusion hsa
  · have hm : a0 ∈ l := hdec ▸ List.mem_append_right l1 (List.mem_cons_self a0 l2)
    constructor
    · constructor
      · intro hnone
        rw [hsome] at hnone
        exact Option.noConfusion hnone
      · intro hno
        exact absurd ((candidate_iff a0 req).mp hca) (hno a0 hm)
    · intro a hsa
      have haa0 : a = a0 := by
        rw [hsome] at hsa
        exact (Option.some.inj hsa).symm
      subst haa0
      obtain ⟨helig, hpos⟩ := (candidate_iff a req).mp hca
      refine ⟨hm, helig, hpos, ?_, l1, l2, hdec, ?_⟩
      · intro b hb hbe
        by_cases hbp : 0 < matchScore b req
        · have hbc : isCandidate b req = true := (candidate_iff b req).mpr ⟨hbe, hbp⟩
          subst hdec
          rcases List.mem_append.mp hb with hb1 | hb2
          · exact Nat.le_of_lt (hlt b hb1 hbc)
          · rcases List.mem_cons.mp hb2 with hba | hb2
            · subst hba; exact Nat.le_refl _
            · exact hle b hb2 hbc
        · exact Nat.le_trans (Nat.le_of_not_lt hbp) (Nat.le_of_lt hpos)
      · intro b hb hbe hbp
        exact hlt b hb ((candidate_iff b req).mpr ⟨hbe, hbp⟩)

/-- C5 witness: the registry of end-to-end scenario C, two idle agents both
matching "backend", the first registered also matching "api"; the returned
agent is the first one and satisfies every conclusion of the specification
theorem. -/
theorem find_best_agent_spec_witness :
    Agent.mk "atlas" ["backend", "api"] AgentStatus.idle ∈
        [Agent.mk "atlas" ["backend", "api"] AgentStatus.idle,
         Agent.mk "pixel" ["backend"] AgentStatus.idle]
    ∧ eligibleStatus (Agent.mk "atlas" ["backend", "api"] AgentStatus.idle) = true
    ∧ 0 < matchScore (Agent.mk "atlas" ["backend", "api"] AgentStatus.idle) ["backend", "api"]
    ∧ (∀ b ∈ [Agent.mk "atlas" ["backend", "api"] AgentStatus.idle,
              Agent.mk "pixel" ["backend"] AgentStatus.idle],
        eligibleStatus b = true →
          matchScore b ["backend", "api"] ≤
            matchScore (Agent.mk "atlas" ["backend", "api"] AgentStatus.idle) ["backend", "api"])
    ∧ ∃ l1 l2,
        [Agent.mk "atlas" ["backend", "api"] AgentStatus.idle,
         Agent.mk "pixel" ["backend"] AgentStatus.idle] =
          l1 ++ (Agent.mk "atlas" ["backend", "api"] AgentStatus.idle) :: l2
        ∧ ∀ b ∈ l1, eligibleStatus b = true → 0 < matchScore b ["backend", "api"] →
            matchScore b ["backend", "api"] <
              matchScore (Agent.mk "atlas" ["backend", "api"] AgentStatus.idle) ["backend", "api"] :=
  (find_best_agent_spec ["backend", "api"]
      [Agent.mk "atlas" ["backend", "api"] AgentStatus.idle,
       Agent.mk "pixel" ["backend"] AgentStatus.idle]).2
    (Agent.mk "atlas" ["backend", "api"] AgentStatus.idle) rfl

/-- C6 counterexample: two eligible agents with equal intersection score, the
first-registered one active (busy) and the second idle; find_best_agent
returns the busy first-registered agent, so an idle agent is NOT preferred
over a busy one on equal score. -/
theorem find_best_agent_no_idle_pref_cex :
    find_best_agent ["frontend"]
        [Agent.mk "forge" ["frontend"] AgentStatus.active,
         Agent.mk "blitz" ["frontend"] AgentStatus.idle] =
      some (Agent.mk "forge" ["frontend"] AgentStatus.active)
    ∧ (Agent.mk "forge" ["frontend"] AgentStatus.active).status = AgentStatus.active
    ∧ (Agent.mk "blitz" ["frontend"] AgentStatus.idle).status = AgentStatus.idle
    ∧ eligibleStatus (Agent.mk "blitz" ["frontend"] AgentStatus.idle) = true
    ∧ matchScore (Agent.mk "blitz" ["frontend"] AgentStatus.idle) ["frontend"] =
        matchScore (Agent.mk "forge" ["frontend"] AgentStatus.active) ["frontend"]
    ∧ Agent.mk "forge" ["frontend"] AgentStatus.active ≠
        Agent.mk "blitz" ["frontend"] AgentStatus.idle := by
  refine ⟨rfl, rfl, rfl, rfl, rfl, ?_⟩
  decide

/-- C6 amended: agents with status working or error are excluded entirely
(the result only depends on the eligible sublist and the returned agent is
idle or active); active (busy) agents remain eligible; but on equal score
there is NO preference for idle agents: the tie-break is purely registration
order, so every earlier-registered candidate, idle or busy, has a strictly
smaller score than the returned agent. -/
theorem find_best_agent_status_rule (req : List String) (l : List Agent) (a : Agent)
    (h : find_best_agent req l = some a) :
    (a.status = AgentStatus.idle ∨ a.status = AgentStatus.active)
    ∧ find_best_agent req (l.filter (fun b => eligibleStatus b)) = find_best_agent req l
    ∧ ∃ l1 l2, l = l1 ++ a :: l2
        ∧ ∀ b ∈ l1, eligibleStatus b = true → 0 < matchScore b req →
            matchScore b req < matchScore a req := by
  rcases find_best_cases req l with ⟨hn, _⟩ | ⟨l1, a0, l2, hsome, hdec, hca, hlt, _⟩
  · rw [hn] at h
    exact Option.noConfusion h
  · have haa0 : a = a0 := by
      rw [hsome] at h
      exact (Option.some.inj h).symm
    subst haa0
    obtain ⟨helig, _⟩ := (candidate_iff a req).mp hca
    refine ⟨eligible_idle_or_active a helig, find_best_filter req l, l1, l2, hdec, ?_⟩
    intro b hb hbe hbp
    exact hlt b hb ((candidate_iff b req).mpr ⟨hbe, hbp⟩)

/-- C6 amended witness: on the busy-first registry, the returned busy agent is
active, the working and error statuses are irrelevant to the result, and the
registration-order decomposition holds. -/
theorem find_best_agent_status_rule_witness :
    ((Agent.mk "forge" ["frontend"] AgentStatus.active).status = AgentStatus.idle
      ∨ (Agent.mk "forge" ["frontend"] AgentStatus.active).status = AgentStatus.active)
    ∧ find_best_agent ["frontend"]
        (([Agent.mk "forge" ["frontend"] AgentStatus.active,
           Agent.mk "blitz" ["frontend"] AgentStatus.idle]).filter
          (fun b => eligibleStatus b)) =
      find_best_agent ["frontend"]
        [Agent.mk "forge" ["frontend"] AgentStatus.active,
         Agent.mk "blitz" ["frontend"] AgentStatus.idle]
    ∧ ∃ l1 l2,
        [Agent.mk "forge" ["frontend"] AgentStatus.active,
         Agent.mk "blitz" ["frontend"] AgentStatus.idle] =
          l1 ++ (Agent.mk "forge" ["frontend"] AgentStatus.active) :: l2
        ∧ ∀ b ∈ l1, eligibleStatus b = true → 0 < matchScore b ["frontend"] →
            matchScore b ["frontend"] <
              matchScore (Agent.mk "forge" ["frontend"] AgentStatus.active) ["frontend"] :=
  find_best_agent_status_rule ["frontend"]
    [Agent.mk "forge" ["frontend"] AgentStatus.active,
     Agent.mk "blitz" ["frontend"] AgentStatus.idle]
    (Agent.mk "forge" ["frontend"] AgentStatus.active) rfl

/- ====================================================================
   Lemmas about store operations
   ==================================================================== -/

/-- Updating a document and then fetching it yields the updated document,
provided the update keeps the id. -/
lemma find_map_task (l : List TaskDoc) (tid : String) (f : TaskDoc → TaskDoc)
    (hf : ∀ t : TaskDoc, (f t).id = t.id) :
    find_task (map_task l tid f) tid = (find_task l tid).map f := by
  induction l with
  | nil => rfl
  | cons t rest ih =>
    by_cases ht : (t.id == tid) = true
    · have hft : ((f t).id == tid) = true := by rw [hf t]; exact ht
      rw [find_task, map_task, List.map_cons, if_pos ht,
        List.find?_cons_of_pos (p := fun u : TaskDoc => u.id == tid) _ hft,
        find_task, List.find?_cons_of_pos (p := fun u : TaskDoc => u.id == tid) _ ht]
      rfl
    · rw [find_task, map_task, List.map_cons, if_neg ht,
        List.find?_cons_of_neg (p := fun u : TaskDoc => u.id == tid) _ ht,
        find_task, List.find?_cons_of_neg (p := fun u : TaskDoc => u.id == tid) _ ht]
      exact ih

/-- get_task after db_update_task, for id-preserving updates. -/
lemma get_task_update (s : Backend) (tid : String) (f : TaskDoc → TaskDoc)
    (hf : ∀ t : TaskDoc, (f t).id = t.id) :
    get_task (db_update_task s tid f) tid = (get_task s tid).map f :=
  find_map_task s.tasks tid f hf

@[simp] lemma get_task_push_event (s : Backend) (e : Event) (tid : String) :
    get_task (push_event s e) tid = get_task s tid := rfl

@[simp] lemma lookup_get_push_event (s : Backend) (e : Event) (tid : String) :
    lookup_get (push_event s e) tid = lookup_get s tid := rfl

@[simp] lemma lookup_get_update (s : Backend) (tid tid2 : String) (f : TaskDoc → TaskDoc) :
    lookup_get (db_update_task s tid f) tid2 = lookup_get s tid2 := rfl

@[simp] lemma get_task_set_artifacts (s : Backend) (l : List ArtifactDoc) (tid : String) :
    get_task { s with artifacts := l } tid = get_task s tid := rfl

@[simp] lemma get_task_set_background (s : Backend) (l : List String) (tid : String) :
    get_task { s with background := l } tid = get_task s tid := rfl

@[simp] lemma tasks_push_event (s : Backend) (e : Event) :
    (push_event s e).tasks = s.tasks := rfl

@[simp] lemma tasks_db_update (s : Backend) (tid : String) (f : TaskDoc → TaskDoc) :
    (db_update_task s tid f).tasks = map_task s.tasks tid f := rfl

@[simp] lemma events_push_event (s : Backend) (e : Event) :
    (push_event s e).events = s.events ++ [e] := rfl

@[simp] lemma events_db_update (s : Backend) (tid : String) (f : TaskDoc → TaskDoc) :
    (db_update_task s tid f).events = s.events := rfl

@[simp] lemma artifacts_push_event (s : Backend) (e : Event) :
    (push_event s e).artifacts = s.artifacts := rfl

@[simp] lemma artifacts_db_update (s : Backend) (tid : String) (f : TaskDoc → TaskDoc) :
    (db_update_task s tid f).artifacts = s.artifacts := rfl

@[simp] lemma get_project_push_event (s : Backend) (e : Event) (pid : String) :
    get_project (push_event s e) pid = get_project s pid := rfl

@[simp] lemma get_project_db_update (s : Backend) (tid : String) (f : TaskDoc → TaskDoc)
    (pid : String) : get_project (db_update_task s tid f) pid = get_project s pid := rfl

@[simp] lemma background_push_event (s : Backend) (e : Event) :
    (push_event s e).background = s.background := rfl

@[simp] lemma background_db_update (s : Backend) (tid : String) (f : TaskDoc → TaskDoc) :
    (db_update_task s tid f).background = s.background := rfl

@[simp] lemma tasks_set_artifacts (s : Backend) (l : List ArtifactDoc) :
    ({ s with artifacts := l } : Backend).tasks = s.tasks := rfl

@[simp] lemma events_set_artifacts (s : Backend) (l : List ArtifactDoc) :
    ({ s with artifacts := l } : Backend).events = s.events := rfl

@[simp] lemma get_project_set_artifacts (s : Backend) (l : List ArtifactDoc) (pid : String) :
    get_project { s with artifacts := l } pid = get_project s pid := rfl

@[simp] lemma fresh_artifact_push_event (s : Backend) (e : Event) :
    fresh_artifact_id (push_event s e) = fresh_artifact_id s := rfl

@[simp] lemma fresh_artifact_db_update (s : Backend) (tid : String) (f : TaskDoc → TaskDoc) :
    fresh_artifact_id (db_update_task s tid f) = fresh_artifact_id s := rfl

/-- Conditional form of get_task_update for use by the simplifier: the side
condition (the update keeps the id) is discharged definitionally. -/
@[simp] lemma get_task_update_simp (s : Backend) (tid : String) (f : TaskDoc → TaskDoc)
    (hf : ∀ t : TaskDoc, (f t).id = t.id) :
    get_task (db_update_task s tid f) tid = (get_task s tid).map f :=
  get_task_update s tid f hf

@[simp] lemma get_task_mk (ps : List ProjectDoc) (ts : List TaskDoc) (ar : List ArtifactDoc)
    (lk : List (String × String)) (ev : List Event) (bg : List String) (tid : String) :
    get_task (Backend.mk ps ts ar lk ev bg) tid = find_task ts tid := rfl

/-- Conditional form of find_map_task for the simplifier. -/
@[simp] lemma find_map_task_simp (l : List TaskDoc) (tid : String) (f : TaskDoc → TaskDoc)
    (hf : ∀ t : TaskDoc, (f t).id = t.id) :
    find_task (map_task l tid f) tid = (find_task l tid).map f :=
  find_map_task l tid f hf

/-- C1 counterexample: rejecting the task whose retry counter is already at
max_retries does NOT fail it.  The handler answers "retrying", sets the status
back to "pending" (not "failed"), pushes retry_count past max_retries, and
schedules a further execution attempt. -/
theorem reject_at_bound_cex :
    c1Task.retry_count = c1Task.max_retries
    ∧ reject_task c1State "t1" = Except.ok (c1After, "retrying")
    ∧ (get_task c1After "t1").map TaskDoc.status = some "pending"
    ∧ (get_task c1After "t1").map TaskDoc.status ≠ some "failed"
    ∧ (get_task c1After "t1").map TaskDoc.retry_count = some (c1Task.max_retries + 1)
    ∧ "t1" ∈ c1After.background := by
  refine ⟨rfl, rfl, rfl, ?_, rfl, ?_⟩
  · decide
  · decide

/-- C1 amended: reject_task, on a task present in the lookup and in the store,
always succeeds with "retrying": it increments retry_count without consulting
max_retries (so the counter can exceed the bound), writes the status "pending"
(never "failed"), and schedules re-execution through BackgroundTasks. -/
theorem reject_task_unbounded (s : Backend) (tid pid : String) (t : TaskDoc)
    (hl : lookup_get s tid = some pid) (ht : get_task s tid = some t) :
    ∃ s3 : Backend, reject_task s tid = Except.ok (s3, "retrying")
      ∧ get_task s3 tid = some { t with status := "pending", retry_count := t.retry_count + 1 }
      ∧ s3.background = s.background ++ [tid]
      ∧ s3.events = s.events ++ [Event.task_rejected pid tid] := by
  have h0 : reject_task s tid = Except.ok
      ({ push_event (db_update_task s tid (fun u => { u with status := "pending", retry_count := t.retry_count + 1 })) (Event.task_rejected pid tid) with background := s.background ++ [tid] },
        "retrying") := by
    simp only [reject_task, hl, ht, background_push_event, background_db_update]
  refine ⟨_, h0, ?_, rfl, rfl⟩
  rw [get_task_set_background, get_task_push_event,
    get_task_update s tid
      (fun u => { u with status := "pending", retry_count := t.retry_count + 1 })
      (fun u => rfl),
    ht]
  rfl

/-- C1 amended witness: the amended conclusion, instantiated at the concrete
at-the-bound backend. -/
theorem reject_task_unbounded_witness :
    ∃ s3 : Backend, reject_task c1State "t1" = Except.ok (s3, "retrying")
      ∧ get_task s3 "t1" =
          some { c1Task with status := "pending", retry_count := c1Task.retry_count + 1 }
      ∧ s3.background = c1State.background ++ ["t1"]
      ∧ s3.events = c1State.events ++ [Event.task_rejected "p1" "t1"] :=
  reject_task_unbounded c1State "t1" "p1" c1Task rfl rfl

/-- C2 counterexample: approving an already-approved task succeeds a second
time instead of failing with NotFound, and the task_approved broadcast is
emitted twice. -/
theorem approve_twice_cex :
    approve_task c2State "t9" = Except.ok (c2After, "approved")
    ∧ (get_task c2After "t9").map TaskDoc.status = some "completed"
    ∧ approve_task c2After "t9" = Except.ok (c2After2, "approved")
    ∧ c2After2.events = [Event.task_approved "p2" "t9", Event.task_approved "p2" "t9"] := by
  exact ⟨rfl, rfl, rfl, rfl⟩

/-- On a task present in the lookup and the store, approve_task succeeds and
its result state is the store update followed by the broadcast. -/
lemma approve_task_ok (s : Backend) (tid pid : String) (t : TaskDoc)
    (hl : lookup_get s tid = some pid) (ht : get_task s tid = some t) :
    approve_task s tid = Except.ok
      (push_event (db_update_task s tid (fun u => { u with status := "completed" }))
        (Event.task_approved pid tid), "approved") := by
  simp only [approve_task, hl, ht]

/-- C2 amended: approve_task checks only that the task id is in the lookup
dict and in the store, never the current status: it succeeds on a task in any
status, overwrites the status with "completed", emits task_approved, and a
second approval on the resulting state succeeds again and emits the broadcast
a second time. -/
theorem approve_task_no_status_check (s : Backend) (tid pid : String) (t : TaskDoc)
    (hl : lookup_get s tid = some pid) (ht : get_task s tid = some t) :
    ∃ s2 : Backend, approve_task s tid = Except.ok (s2, "approved")
      ∧ get_task s2 tid = some { t with status := "completed" }
      ∧ s2.events = s.events ++ [Event.task_approved pid tid]
      ∧ ∃ s4 : Backend, approve_task s2 tid = Except.ok (s4, "approved")
        ∧ s4.events = s.events
            ++ [Event.task_approved pid tid, Event.task_approved pid tid] := by
  have hupd : get_task
      (push_event (db_update_task s tid (fun u => { u with status := "completed" }))
        (Event.task_approved pid tid)) tid = some { t with status := "completed" } := by
    rw [get_task_push_event,
      get_task_update s tid (fun u => { u with status := "completed" }) (fun u => rfl), ht]
    rfl
  have hl2 : lookup_get
      (push_event (db_update_task s tid (fun u => { u with status := "completed" }))
        (Event.task_approved pid tid)) tid = some pid := by
    rw [lookup_get_push_event, lookup_get_update]
    exact hl
  refine ⟨_, approve_task_ok s tid pid t hl ht, hupd, rfl, _,
    approve_task_ok _ tid pid _ hl2 hupd, ?_⟩
  simp [List.append_assoc]

/-- C2 amended witness: the amended conclusion, instantiated at the concrete
backend holding one task in review. -/
theorem approve_task_no_status_check_witness :
    ∃ s2 : Backend, approve_task c2State "t9" = Except.ok (s2, "approved")
      ∧ get_task s2 "t9" = some { c2Task with status := "completed" }
      ∧ s2.events = c2State.events ++ [Event.task_approved "p2" "t9"]
      ∧ ∃ s4 : Backend, approve_task s2 "t9" = Except.ok (s4, "approved")
        ∧ s4.events = c2State.events
            ++ [Event.task_approved "p2" "t9", Event.task_approved "p2" "t9"] :=
  approve_task_no_status_check c2State "t9" "p2" c2Task rfl rfl

/-- C7: when the content generator fails, run_task_execution does not abort.
It substitutes the fallback template — a function of only the project type
and the task title, description and agent (the same output for every error,
as the determinism conjunct states) — emits an ai_generation_warning event,
still persists an artifact referencing the task and carrying the template as
content, and still moves the task to pending_review with the artifact
attached: the same terminal task state as when generation succeeds. -/
theorem run_task_execution_fallback (s : Backend) (tid pid : String) (task0 t0 : TaskDoc)
    (ht : get_task s tid = some t0) (err okc : String) :
    (get_task (run_task_execution s tid pid task0 (Except.error err)) tid =
        some { t0 with status := "pending_review",
                       artifact_id := some (fresh_artifact_id s) })
    ∧ (∃ a : ArtifactDoc,
        a ∈ (run_task_execution s tid pid task0 (Except.error err)).artifacts
        ∧ a.id = fresh_artifact_id s ∧ a.task_id = tid
        ∧ a.content = fallback_template
            (((get_project s pid).map (fun p => p.project_type)).getD "software")
            task0.title t0.description task0.assigned_agent)
    ∧ (∃ m d : String, Event.ai_generation_warning pid tid m d
        ∈ (run_task_execution s tid pid task0 (Except.error err)).events)
    ∧ (∀ err2 : String,
        (run_task_execution s tid pid task0 (Except.error err2)).tasks =
          (run_task_execution s tid pid task0 (Except.error err)).tasks
        ∧ (run_task_execution s tid pid task0 (Except.error err2)).artifacts =
          (run_task_execution s tid pid task0 (Except.error err)).artifacts)
    ∧ (get_task (run_task_execution s tid pid task0 (Except.ok okc)) tid =
        some { t0 with status := "pending_review",
                       artifact_id := some (fresh_artifact_id s) }) := by
  have hgt1 : get_task (db_update_task s tid (fun u => { u with status := "in_progress" })) tid
      = some { t0 with status := "in_progress" } := by
    rw [get_task_update s tid (fun u => { u with status := "in_progress" }) (fun u => rfl), ht]
    rfl
  have ht2 : find_task s.tasks tid = some t0 := ht
  refine ⟨?_, ?_, ?_, ?_, ?_⟩
  · simp [run_task_execution, hgt1, ht, ht2]
  · simp only [run_task_execution]
    simp only [artifacts_push_event, artifacts_db_update, hgt1]
    refine ⟨_, List.mem_append_right _ (List.mem_singleton_self _), ?_, rfl, ?_⟩
    · simp
    · simp
  · refine ⟨"AI " ++ (((get_project s pid).map (fun p => p.project_type)).getD "software")
        ++ " content generation unavailable. Using template output.", err.take 200, ?_⟩
    simp [run_task_execution]
  · intro err2
    constructor
    · simp [run_task_execution, hgt1]
    · simp [run_task_execution, hgt1]
  · simp [run_task_execution, hgt1, ht, ht2]

/-- C7 witness: the concrete backend holding one software-project task; both
hypothesis and conclusions instantiate. -/
theorem run_task_execution_fallback_witness :
    (get_task (run_task_execution c7State "t7" "p7" c7Task (Except.error "boom")) "t7" =
        some { c7Task with status := "pending_review",
                           artifact_id := some (fresh_artifact_id c7State) })
    ∧ (∃ a : ArtifactDoc,
        a ∈ (run_task_execution c7State "t7" "p7" c7Task (Except.error "boom")).artifacts
        ∧ a.id = fresh_artifact_id c7State ∧ a.task_id = "t7"
        ∧ a.content = fallback_template
            (((get_project c7State "p7").map (fun p => p.project_type)).getD "software")
            c7Task.title c7Task.description c7Task.assigned_agent)
    ∧ (∃ m d : String, Event.ai_generation_warning "p7" "t7" m d
        ∈ (run_task_execution c7State "t7" "p7" c7Task (Except.error "boom")).events)
    ∧ (∀ err2 : String,
        (run_task_execution c7State "t7" "p7" c7Task (Except.error err2)).tasks =
          (run_task_execution c7State "t7" "p7" c7Task (Except.error "boom")).tasks
        ∧ (run_task_execution c7State "t7" "p7" c7Task (Except.error err2)).artifacts =
          (run_task_execution c7State "t7" "p7" c7Task (Except.error "boom")).artifacts)
    ∧ (get_task (run_task_execution c7State "t7" "p7" c7Task (Except.ok "generated")) "t7" =
        some { c7Task with status := "pending_review",
                           artifact_id := some (fresh_artifact_id c7State) }) :=
  run_task_execution_fallback c7State "t7" "p7" c7Task c7Task rfl "boom" "generated"

/-- C3 counterexample: the store accepts a dependency cycle.  Starting from an
empty store, the first task references the id the second will get (an id that
does not exist yet: no UnknownDependency error), the second references the
first back, and both are stored: the persisted graph is a 2-cycle and no
error of any kind was raised. -/
theorem create_task_cycle_cex :
    c3s0.tasks = []
    ∧ (get_task c3s2 "task_0").map TaskDoc.dependencies = some ["task_1"]
    ∧ (get_task c3s2 "task_1").map TaskDoc.dependencies = some ["task_0"]
    ∧ (get_task c3s2 "task_0").map TaskDoc.project_id = some "p3"
    ∧ (get_task c3s2 "task_1").map TaskDoc.project_id = some "p3" := by
  exact ⟨rfl, rfl, rfl, rfl, rfl⟩

/-- C3 amended: create_task performs no dependency validation whatsoever: it
is a total function with no error outcome, it stores the task verbatim
(dependencies included, whatever they reference), and it appends it to the
collection unconditionally. -/
theorem create_task_no_validation (s : Backend) (d : TaskCreateData) :
    ((create_task s d).1.dependencies = d.dependencies)
    ∧ ((create_task s d).1.project_id = d.project_id)
    ∧ ((create_task s d).1.status = d.status)
    ∧ (create_task s d).2.tasks = s.tasks ++ [(create_task s d).1]
    ∧ ∀ cyc : List String,
        (create_task s { d with dependencies := cyc }).1.dependencies = cyc :=
  ⟨rfl, rfl, rfl, rfl, fun _ => rfl⟩

instance : IsTotal TaskDoc taskLE := by
  constructor
  intro a b
  simp only [taskLE]
  rcases lt_trichotomy a.priority b.priority with h | h | h
  · exact Or.inr (Or.inl h)
  · rcases Nat.le_total a.created_at b.created_at with hc | hc
    · exact Or.inl (Or.inr ⟨h, hc⟩)
    · exact Or.inr (Or.inr ⟨h.symm, hc⟩)
  · exact Or.inl (Or.inl h)

instance : IsTrans TaskDoc taskLE := by
  constructor
  intro a b c hab hbc
  simp only [taskLE] at hab hbc ⊢
  rcases hab with h1 | ⟨e1, c1⟩
  · rcases hbc with h2 | ⟨e2, c2⟩
    · exact Or.inl (lt_trans h2 h1)
    · exact Or.inl (lt_of_le_of_lt (le_of_eq e2.symm) h1)
  · rcases hbc with h2 | ⟨e2, c2⟩
    · exact Or.inl (lt_of_lt_of_le h2 (le_of_eq e1.symm))
    · exact Or.inr ⟨e1.trans e2, Nat.le_trans c1 c2⟩

/-- C4 counterexample: list_by_project returns a task in todo whose dependency
is NOT completed (the dependency itself is still todo), so the listing is not
the ready set: a task with an incomplete dependency is returned. -/
theorem list_by_project_ready_cex :
    c4t1 ∈ list_by_project c4State "p4"
    ∧ "a" ∈ c4t1.dependencies
    ∧ get_task c4State "a" = some c4t0
    ∧ c4t0.status = "todo"
    ∧ c4t0.status ≠ "completed" := by
  refine ⟨?_, ?_, rfl, rfl, ?_⟩
  · rw [list_by_project, List.mem_insertionSort]
    decide
  · decide
  · decide

/-- C4 amended: list_by_project returns EVERY task of the project — membership
is exactly project membership, with no filter on status and no look at
dependency completion — ordered by the SQL key (priority as a string,
descending; created_at ascending). -/
theorem list_by_project_unfiltered (s : Backend) (pid : String) :
    (∀ t : TaskDoc, t ∈ list_by_project s pid ↔ (t ∈ s.tasks ∧ t.project_id = pid))
    ∧ List.Sorted taskLE (list_by_project s pid) := by
  constructor
  · intro t
    rw [list_by_project, List.mem_insertionSort, List.mem_filter]
    simp
  · exact List.sorted_insertionSort taskLE _

/-- C8 counterexample: update_phase accepts a backward transition.  From a
fresh state moved to Completed, a further update_phase to Planning succeeds
and leaves the project at a phase strictly earlier in the sequence, without
being Failed: the phase sequence is not monotone and Planning is revisited. -/
theorem phase_monotonicity_cex :
    (update_phase c8s0 WorkflowPhase.completed).phase = WorkflowPhase.completed
    ∧ (update_phase (update_phase c8s0 WorkflowPhase.completed)
        WorkflowPhase.planning).phase = WorkflowPhase.planning
    ∧ phaseIndex (update_phase (update_phase c8s0 WorkflowPhase.completed)
        WorkflowPhase.planning).phase <
        phaseIndex (update_phase c8s0 WorkflowPhase.completed).phase
    ∧ (update_phase (update_phase c8s0 WorkflowPhase.completed)
        WorkflowPhase.planning).phase ≠ WorkflowPhase.failed := by
  refine ⟨rfl, rfl, ?_, ?_⟩
  · decide
  · decide

/-- C8 amended: update_phase writes the requested phase unconditionally — it
enforces no order on transitions: the new phase always lands, a second update
overwrites the first with any phase whatsoever (backward moves and revisits
included), and no trace of the previous phase is kept. -/
theorem update_phase_unguarded (s : AgentState) (p q : WorkflowPhase) :
    (update_phase s p).phase = p
    ∧ (update_phase (update_phase s p) q).phase = q
    ∧ update_phase (update_phase s p) q = update_phase s q :=
  ⟨rfl, rfl, rfl⟩

/-- C9 counterexample: a project that has reached (not strictly exceeded)
max_iterations is reported finished by is_workflow_complete while still in
phase Building: the workflow stops, but the phase is never moved to Failed
and no ProjectFailed event exists in the source. -/
theorem stall_not_failed_cex :
    c9Stalled.iteration = c9Stalled.max_iterations
    ∧ is_workflow_complete c9Stalled = true
    ∧ c9Stalled.phase = WorkflowPhase.building
    ∧ c9Stalled.phase ≠ WorkflowPhase.failed := by
  refine ⟨rfl, ?_, rfl, ?_⟩
  · decide
  · decide

/-- C9 amended: once the iteration counter reaches max_iterations the workflow
is complete (the driving loop stops) — and this holds whatever the current
phase is, in particular mid-flight in Building: stopping does not move the
project to Failed. -/
theorem stall_detection_no_failed (s : AgentState) (h : s.max_iterations ≤ s.iteration) :
    is_workflow_complete s = true
    ∧ is_workflow_complete (update_phase s WorkflowPhase.building) = true := by
  constructor
  · simp [is_workflow_complete, h]
  · simp [is_workflow_complete, update_phase, h]

/-- C9 amended witness: the stalled concrete state at iteration 10 of 10. -/
theorem stall_detection_no_failed_witness :
    is_workflow_complete c9Stalled = true
    ∧ is_workflow_complete (update_phase c9Stalled WorkflowPhase.building) = true :=
  stall_detection_no_failed c9Stalled (by decide)

/-- The retry branch of the Build and QA conditional is taken only while the
retry counter is strictly below the bound (workflow.py line 174). -/
lemma should_retry_code_bound (t : BuildQAState) (h : should_retry_code t = "retry") :
    t.retry_count < t.max_retries := by
  by_cases hcond : (!t.test_passed && decide (t.retry_count < t.max_retries)) = true
  · exact of_decide_eq_true (Bool.and_elim_right hcond)
  · rw [should_retry_code, if_neg hcond] at h
    by_cases hp : t.test_passed = true
    · rw [if_pos hp] at h
      exact absurd h (by decide)
    · rw [if_neg hp] at h
      exact absurd h (by decide)

@[simp] lemma write_code_retry_count (s : BuildQAState) :
    (write_code_node s).retry_count = s.retry_count := rfl

@[simp] lemma write_code_max_retries (s : BuildQAState) :
    (write_code_node s).max_retries = s.max_retries := rfl

lemma test_code_retry_count (s : BuildQAState) :
    (test_code_node s).retry_count = s.retry_count := by
  rw [test_code_node]
  split <;> rfl

lemma test_code_max_retries (s : BuildQAState) :
    (test_code_node s).max_retries = s.max_retries := by
  rw [test_code_node]
  split <;> rfl

lemma retry_node_retry_count (t : BuildQAState) :
    (retry_code_node t).retry_count = t.retry_count + 1 := rfl

lemma retry_node_max_retries (t : BuildQAState) :
    (retry_code_node t).max_retries = t.max_retries := rfl

/-- One unfolding of the Build and QA loop. -/
lemma run_build_qa_loop_eq (s : BuildQAState) :
    run_build_qa_loop s =
      if _h : should_retry_code (test_code_node (write_code_node s)) = "retry" then
        ((run_build_qa_loop (retry_code_node (test_code_node (write_code_node s)))).1,
          (run_build_qa_loop (retry_code_node (test_code_node (write_code_node s)))).2 + 1)
      else if should_retry_code (test_code_node (write_code_node s)) = "success" then
        (finalize_code_node (test_code_node (write_code_node s)), 1)
      else (test_code_node (write_code_node s), 1) := by
  rw [run_build_qa_loop]

/-- The loop performs at most max_retries - retry_count + 1 write/test cycles;
induction on an upper bound of the termination measure. -/
lemma run_qa_cycles_le :
    ∀ (n : Nat) (s : BuildQAState), s.max_retries + 1 - s.retry_count ≤ n →
      (run_build_qa_loop s).2 ≤ s.max_retries - s.retry_count + 1 := by
  intro n
  induction n with
  | zero =>
    intro s hn
    have hrc : ¬ should_retry_code (test_code_node (write_code_node s)) = "retry" := by
      intro hr
      have hb := should_retry_code_bound _ hr
      rw [test_code_retry_count, test_code_max_retries, write_code_retry_count,
        write_code_max_retries] at hb
      omega
    rw [run_build_qa_loop_eq, dif_neg hrc]
    split
    · simp
    · simp
  | succ n ih =>
    intro s hn
    by_cases hr : should_retry_code (test_code_node (write_code_node s)) = "retry"
    · have hb := should_retry_code_bound _ hr
      rw [test_code_retry_count, test_code_max_retries, write_code_retry_count,
        write_code_max_retries] at hb
      have hmeas : (retry_code_node (test_code_node (write_code_node s))).max_retries + 1
          - (retry_code_node (test_code_node (write_code_node s))).retry_count ≤ n := by
        rw [retry_node_retry_count, retry_node_max_retries, test_code_retry_count,
          test_code_max_retries, write_code_retry_count, write_code_max_retries]
        omega
      have h2 := ih (retry_code_node (test_code_node (write_code_node s))) hmeas
      rw [run_build_qa_loop_eq, dif_pos hr]
      rw [retry_node_retry_count, retry_node_max_retries, test_code_retry_count,
        test_code_max_retries, write_code_retry_count, write_code_max_retries] at h2
      omega
    · rw [run_build_qa_loop_eq, dif_neg hr]
      split
      · simp
      · simp

/-- C10: the Build and QA retry loop is bounded: the retry branch fires only
while retry_count is below max_retries, each retry increments retry_count by
one, and from any state with retry_count at most max_retries the loop ends
after at most max_retries - retry_count + 1 write/test cycles. -/
theorem build_qa_loop_bounded (s : BuildQAState) (h : s.retry_count ≤ s.max_retries) :
    (∀ t : BuildQAState, should_retry_code t = "retry" → t.retry_count < t.max_retries)
    ∧ (∀ t : BuildQAState, (retry_code_node t).retry_count = t.retry_count + 1)
    ∧ (run_build_qa_loop s).2 ≤ s.max_retries - s.retry_count + 1 := by
  refine ⟨fun t => should_retry_code_bound t, fun t => rfl, ?_⟩
  exact run_qa_cycles_le (s.max_retries + 1 - s.retry_count) s (Nat.le_refl _)

/-- C10 witness: the initial state built by run_build_qa_workflow (retry 0,
bound 5) satisfies the hypothesis, giving at most 6 cycles. -/
theorem build_qa_loop_bounded_witness :
    (∀ t : BuildQAState, should_retry_code t = "retry" → t.retry_count < t.max_retries)
    ∧ (∀ t : BuildQAState, (retry_code_node t).retry_count = t.retry_count + 1)
    ∧ (run_build_qa_loop c10Init).2 ≤ c10Init.max_retries - c10Init.retry_count + 1 :=
  build_qa_loop_bounded c10Init (by decide)

end Velo
